import Mathlib

/-!
Verification of the homework-checker reconciliation core
(`src/check_homework_web.py`).

The embedding models:
  * `extract_student_id`  — `re.search(r'\d{9}', str(filename))`,
    returning the leftmost 9-digit run of a string, or `none`;
  * `process_roster`      — header-row detection by the `学号` marker,
    header/data split, identifier/name column lookup (raising
    `IndexError` when a marker matches no column label), and row
    cleaning (`dropna` + 9-digit extraction);
  * the reconciliation metrics — `all_student_ids`, `submitted_ids`,
    `missing_ids`, `submit_count`, `missing_count`, `submit_rate`, and
    the per-identifier status column (`状态`).

Cells of the raw table are `Option String`: `none` models a blank cell
(pandas `NaN`, dropped by `dropna`); `some s` models a cell whose
textual form (`str(...)` / `astype(str)`) is `s`.  Python floats are
modelled by `ℚ` (the quantities involved are exact small rationals).
-/

/-- A decimal digit, as matched by `\d` (restricted to ASCII digits). -/
def isDig (c : Char) : Bool := '0' ≤ c && c ≤ '9'

/-- Predicate: `\d{9}` matches at position `i` of `l`: at least 9 characters remain
and the next 9 are all digits. -/
def runAt (l : List Char) (i : Nat) : Bool :=
  decide (i + 9 ≤ l.length) && ((l.drop i).take 9).all isDig

/-- Leftmost 9-digit run of a character list: scan positions left to
right, and at the first position where `\d{9}` matches, return those 9
characters.  This is `re.search(r'\d{9}', s)`. -/
def extractList : List Char → Option (List Char)
  | [] => none
  | c :: rest =>
    if runAt (c :: rest) 0 then some ((c :: rest).take 9)
    else extractList rest

/-- Model of `extract_student_id(filename)`: first 9-digit run of the string, or
`None`.  Source: `re.search(r'\d{9}', str(filename))`, lines 15–18. -/
def extract_student_id (s : String) : Option String :=
  (extractList s.data).map fun l => ⟨l⟩

example : extract_student_id "ab1234567890xy" = some "123456789" := by decide
example : extract_student_id "12345678" = none := by decide
example : extract_student_id "" = none := by decide

/-- A table cell: `none` is a blank (pandas `NaN`); `some s` is a cell
whose textual form is `s`. -/
abbrev Cell := Option String

/-- A table row: the list of its cells. -/
abbrev Row := List Cell

/-- A raw table: the data rows iterated by `df.iterrows()`. -/
abbrev Table := List Row

/-- Model of `str(cell)` / `astype(str)`: pandas renders a missing value as the
string `"nan"`. -/
def cellStr : Cell → String
  | none => "nan"
  | some s => s

/-- Test whether `b` begins with the characters of `a`. -/
def leadsWith : List Char → List Char → Bool
  | [], _ => true
  | _ :: _, [] => false
  | a :: as, b :: bs => a == b && leadsWith as bs

/-- Python `pat in s` on character lists: `pat` occurs contiguously. -/
def occursIn (pat : List Char) : List Char → Bool
  | [] => pat.isEmpty
  | c :: rest => leadsWith pat (c :: rest) || occursIn pat rest

/-- The identifier-column marker `'学号'`. -/
def idMarker : String := "学号"

/-- The name-column marker `'姓名'`. -/
def nameMarker : String := "姓名"

/-- Model of `'学号' in str(c)` for one cell / column label. -/
def colMatches (marker : String) (c : Cell) : Bool :=
  occursIn marker.data (cellStr c).data

/-- Model of `row.astype(str).str.contains('学号').any()`. -/
def rowHasMarker (marker : String) (r : Row) : Bool :=
  r.any (colMatches marker)

/-- Index of the first list element satisfying `p`, or `none`.  Models
both the header-scan loop with its `break` (over rows) and
`[c for c in df.columns if ...][0]` (over column labels, where an empty
result list makes the `[0]` subscript raise `IndexError`, modelled by
`none`). -/
def firstIdx {α : Type} (p : α → Bool) : List α → Option Nat
  | [] => none
  | c :: rest => if p c then some 0 else (firstIdx p rest).map (· + 1)

/-- Model of `header_row`: first row containing the identifier marker, defaulting
to `0` when none does (lines 25–29). -/
def header_row (df : Table) : Nat :=
  (firstIdx (rowHasMarker idMarker) df).getD 0

/-- The Python exceptions the roster step can raise.  Both failed column
lookups raise the same bare `IndexError('list index out of range')`, and
so does `df.iloc[header_row]` on an empty frame; the exception carries
no information about which lookup failed. -/
inductive PyErr
  | indexError
  deriving DecidableEq, Repr

/-- One data row of `df[[id_col, name_col]].dropna()` followed by the
9-digit extraction and the second `dropna` (lines 38–40): the row
survives with `(identifier, name)` exactly when neither cell is blank
and the identifier cell's text contains a 9-digit run. -/
def cleanRow (idIdx nameIdx : Nat) (r : Row) : Option (String × String) :=
  match r.getD idIdx none, r.getD nameIdx none with
  | some idv, some nm =>
    match extract_student_id idv with
    | some sid => some (sid, nm)
    | none => none
  | _, _ => none

/-- The canonical roster built from the data rows (lines 38–41). -/
def buildRoster (idIdx nameIdx : Nat) (data : Table) : List (String × String) :=
  data.filterMap (cleanRow idIdx nameIdx)

/-- The tail of `process_roster` once the header row has been chosen:
column lookups (each raising `IndexError` when no label matches) and row
cleaning. -/
def processWithHeader (labels : Row) (data : Table) :
    Except PyErr (List (String × String)) :=
  match firstIdx (colMatches idMarker) labels with
  | none => .error .indexError
  | some idIdx =>
    match firstIdx (colMatches nameMarker) labels with
    | none => .error .indexError
    | some nameIdx => .ok (buildRoster idIdx nameIdx data)

/-- Model of `process_roster(df)` (lines 21–41): locate the header row, take its
cells as column labels, keep only the subsequent rows as data, find the
identifier and name columns, and clean the rows. -/
def process_roster (df : Table) : Except PyErr (List (String × String)) :=
  match df.get? (header_row df) with
  | none => .error .indexError
  | some labels => processWithHeader labels (df.drop (header_row df + 1))

/-- Model of `submitted_ids`: identifiers extracted from the uploaded file names;
files yielding no identifier are skipped (lines 66–70). -/
def submitted_ids (files : List String) : Finset String :=
  (files.filterMap extract_student_id).toFinset

/-- Model of `all_student_ids = set(roster_df['学号'])` (line 62). -/
def all_student_ids (roster : List (String × String)) : Finset String :=
  (roster.map Prod.fst).toFinset

/-- Model of `total_students = len(all_student_ids)` (line 63): the number of
expected identifiers. -/
def total_students (roster : List (String × String)) : Nat :=
  (all_student_ids roster).card

/-- Model of `missing_ids = all_student_ids - submitted_ids` (line 73). -/
def missing_ids (allIds sub : Finset String) : Finset String := allIds \ sub

/-- Model of `submit_count = len(submitted_ids)` (line 74). -/
def submit_count (sub : Finset String) : Nat := sub.card

/-- Model of `missing_count = len(missing_ids)` (line 75). -/
def missing_count (allIds sub : Finset String) : Nat :=
  (missing_ids allIds sub).card

/-- Model of `submit_rate = submit_count / total_students if total_students > 0
else 0` (line 76); Python float division modelled exactly in `ℚ`. -/
def submit_rate (allIds sub : Finset String) : ℚ :=
  if 0 < allIds.card then (submit_count sub : ℚ) / (allIds.card : ℚ) else 0

/-- The `状态` column (line 122): each roster row is mapped to its
identifier together with `true` (已交) iff the identifier is in
`submitted_ids`. -/
def statusByIdentifier (roster : List (String × String))
    (sub : Finset String) : List (String × Bool) :=
  roster.map fun e => (e.1, decide (e.1 ∈ sub))

example :
    process_roster
      [[some "title", none],
       [some "学号", some "姓名"],
       [some "x100000001", some "甲"]] = .ok [("100000001", "甲")] := rfl

example :
    submit_rate (all_student_ids [("100000001", "A")])
      (submitted_ids ["999999999_a.py", "123456789_b.py"]) = 2 := by
  have h1 : (all_student_ids [("100000001", "A")]).card = 1 := by decide
  have h2 : submit_count (submitted_ids ["999999999_a.py", "123456789_b.py"]) = 2 := by
    decide
  rw [submit_rate, h1, h2]
  norm_num

/-! ## Lemmas about the identifier extractor -/

/-- Shifting `runAt` past the head of the list. -/
theorem runAt_succ (c : Char) (rest : List Char) (i : Nat) :
    runAt (c :: rest) (i + 1) = runAt rest i := by
  unfold runAt
  rw [List.drop_succ_cons]
  congr 1
  apply decide_eq_decide.mpr
  simp only [List.length_cons]
  omega

/-- The extractor misses exactly when `\d{9}` matches at no position. -/
theorem extractList_eq_none_iff (l : List Char) :
    extractList l = none ↔ ∀ i, runAt l i = false := by
  induction l with
  | nil =>
    constructor
    · intro _ i
      simp [runAt]
    · intro _
      rfl
  | cons c rest ih =>
    cases h : runAt (c :: rest) 0 with
    | true =>
      simp only [extractList, h, if_true]
      constructor
      · intro hcontra
        exact absurd hcontra (by simp)
      · intro hall
        exact absurd (hall 0) (by simp [h])
    | false =>
      simp only [extractList, h, Bool.false_eq_true, if_false]
      rw [ih]
      constructor
      · intro hall i
        cases i with
        | zero => exact h
        | succ j => rw [runAt_succ]; exact hall j
      · intro hall i
        have := hall (i + 1)
        rwa [runAt_succ] at this

/-- If `\d{9}` matches at `i` and at no earlier position, the extractor
returns exactly the 9 characters starting at `i`. -/
theorem extractList_first_match (l : List Char) (i : Nat)
    (hi : runAt l i = true) (hmin : ∀ j, j < i → runAt l j = false) :
    extractList l = some ((l.drop i).take 9) := by
  induction l generalizing i with
  | nil => simp [runAt] at hi
  | cons c rest ih =>
    cases i with
    | zero =>
      simp only [extractList, hi, if_true, List.drop_zero]
    | succ j =>
      have h0 : runAt (c :: rest) 0 = false := hmin 0 (Nat.succ_pos j)
      simp only [extractList, h0, Bool.false_eq_true, if_false,
        List.drop_succ_cons]
      apply ih
      · rwa [runAt_succ] at hi
      · intro k hk
        have := hmin (k + 1) (by omega)
        rwa [runAt_succ] at this

/-- A successful extraction always yields 9 characters, all digits. -/
theorem extractList_wellformed (l : List Char) (r : List Char)
    (h : extractList l = some r) : r.length = 9 ∧ r.all isDig = true := by
  induction l with
  | nil => simp [extractList] at h
  | cons c rest ih =>
    cases h0 : runAt (c :: rest) 0 with
    | true =>
      simp only [extractList, h0, if_true, Option.some.injEq] at h
      subst h
      have hand := (Bool.and_eq_true _ _).mp h0
      have hlen : 9 ≤ (c :: rest).length := by
        simpa using of_decide_eq_true hand.1
      have hdig : ((c :: rest).take 9).all isDig = true := by
        simpa using hand.2
      refine ⟨?_, hdig⟩
      rw [List.length_take]
      omega
    | false =>
      simp only [extractList, h0, Bool.false_eq_true, if_false] at h
      exact ih h

/-! ## Claim C8 and C9: the identifier extractor -/

/-- C8: for every input string, the extractor reports not-found exactly
when no position of the string starts a run of 9 consecutive decimal
digits, and when some position does, it returns the 9 digits starting at
the leftmost such position (so a 10-or-more-digit run yields its first 9
digits; no digit-run boundary is required). -/
theorem C8_extract_leftmost_nine (s : String) :
    (extract_student_id s = none ↔ ∀ i, runAt s.data i = false) ∧
    (∀ i, runAt s.data i = true → (∀ j, j < i → runAt s.data j = false) →
      extract_student_id s = some (String.mk ((s.data.drop i).take 9))) := by
  constructor
  · unfold extract_student_id
    rw [Option.map_eq_none']
    exact extractList_eq_none_iff s.data
  · intro i hi hmin
    unfold extract_student_id
    rw [extractList_first_match s.data i hi hmin]
    rfl

/-- Witness for C8: in `"ab1234567890xy"` the leftmost 9-digit run
starts at position 2 (inside a 10-digit run), and the extractor returns
exactly those 9 characters. -/
theorem C8_extract_leftmost_nine_witness :
    extract_student_id "ab1234567890xy" =
      some (String.mk ((("ab1234567890xy" : String).data.drop 2).take 9)) :=
  (C8_extract_leftmost_nine "ab1234567890xy").2 2 (by decide) (by decide)

/-- C9: the extractor is pure and total — for every input it yields an
explicit result, either not-found (`none`) or a well-formed 9-digit
identifier; failure is a value, never an exception. -/
theorem C9_extract_total (s : String) :
    extract_student_id s = none ∨
      ∃ v, extract_student_id s = some v ∧
        v.length = 9 ∧ v.data.all isDig = true := by
  cases h : extractList s.data with
  | none =>
    left
    unfold extract_student_id
    rw [h]
    rfl
  | some r =>
    right
    refine ⟨⟨r⟩, ?_, ?_, (extractList_wellformed s.data r h).2⟩
    · unfold extract_student_id
      rw [h]
      rfl
    · exact (extractList_wellformed s.data r h).1

/-! ## Lemmas about `firstIdx` -/

/-- The scan misses exactly when no element satisfies the predicate. -/
theorem firstIdx_eq_none_iff {α : Type} (p : α → Bool) (l : List α) :
    firstIdx p l = none ↔ ∀ c ∈ l, p c = false := by
  induction l with
  | nil => simp [firstIdx]
  | cons c rest ih =>
    cases h : p c with
    | true => simp [firstIdx, h]
    | false => simp [firstIdx, h, ih]

/-- A hit of `firstIdx` is in range, satisfies the predicate, and is the
first position to do so. -/
theorem firstIdx_first {α : Type} (p : α → Bool) (l : List α) (i : Nat)
    (d : α) (h : firstIdx p l = some i) :
    i < l.length ∧ p (l.getD i d) = true ∧
      ∀ j, j < i → p (l.getD j d) = false := by
  induction l generalizing i with
  | nil => simp [firstIdx] at h
  | cons c rest ih =>
    cases hpc : p c with
    | true =>
      simp only [firstIdx, hpc, if_true, Option.some.injEq] at h
      subst h
      refine ⟨by simp, by simpa using hpc, ?_⟩
      intro j hj
      omega
    | false =>
      simp only [firstIdx, hpc, Bool.false_eq_true, if_false,
        Option.map_eq_some'] at h
      obtain ⟨i', hi', rfl⟩ := h
      obtain ⟨h1, h2, h3⟩ := ih i' hi'
      refine ⟨by simp; omega, by simpa using h2, ?_⟩
      intro j hj
      cases j with
      | zero => simpa using hpc
      | succ j' =>
        have := h3 j' (by omega)
        simpa using this

/-- Converse: the first position satisfying the predicate is the hit. -/
theorem firstIdx_eq_some_of {α : Type} (p : α → Bool) (l : List α)
    (k : Nat) (d : α) (hk : k < l.length) (hp : p (l.getD k d) = true)
    (hbefore : ∀ j, j < k → p (l.getD j d) = false) :
    firstIdx p l = some k := by
  induction l generalizing k with
  | nil => simp at hk
  | cons c rest ih =>
    cases k with
    | zero =>
      have : p c = true := by simpa using hp
      simp [firstIdx, this]
    | succ k =>
      have h0 : p c = false := by simpa using hbefore 0 (Nat.succ_pos k)
      have hrec : firstIdx p rest = some k := by
        apply ih k (by simp at hk; omega) (by simpa using hp)
        intro j hj
        simpa using hbefore (j + 1) (by omega)
      simp [firstIdx, h0, hrec]

/-! ## Claims C6 and C7: header-row selection -/

/-- C7: when the identifier marker occurs only in row `k`, row `k` is
selected as the header row, its cells become the column labels, all rows
up to and including row `k` are discarded, and the remaining rows are
the data rows. -/
theorem C7_header_at_k (df : Table) (k : Nat) (hk : k < df.length)
    (hmark : rowHasMarker idMarker (df.getD k []) = true)
    (honly : ∀ j, j < df.length → j ≠ k →
      rowHasMarker idMarker (df.getD j []) = false) :
    header_row df = k ∧
    process_roster df =
      processWithHeader (df.getD k []) (df.drop (k + 1)) := by
  have h1 : firstIdx (rowHasMarker idMarker) df = some k := by
    apply firstIdx_eq_some_of _ _ k [] hk hmark
    intro j hj
    exact honly j (by omega) (by omega)
  have h2 : header_row df = k := by rw [header_row, h1]; rfl
  refine ⟨h2, ?_⟩
  unfold process_roster
  rw [h2]
  have hget : df.get? k = some (df.getD k []) := by
    cases hg : df.get? k with
    | none => rw [List.get?_eq_none] at hg; omega
    | some r =>
      rw [List.getD_eq_getElem?_getD, ← List.get?_eq_getElem?, hg]
      rfl
  rw [hget]

/-- Witness for C7: the marker row sits at position 2 of a 4-row table
and is selected as header, with the two title rows and itself
discarded. -/
theorem C7_header_at_k_witness :
    header_row
      [[some "title", none], [none, some "x"],
       [some "学号", some "姓名"], [some "x100000001", some "甲"]] = 2 ∧
    process_roster
      [[some "title", none], [none, some "x"],
       [some "学号", some "姓名"], [some "x100000001", some "甲"]] =
      processWithHeader [some "学号", some "姓名"]
        [[some "x100000001", some "甲"]] :=
  C7_header_at_k
    [[some "title", none], [none, some "x"],
     [some "学号", some "姓名"], [some "x100000001", some "甲"]]
    2 (by decide) (by decide) (by decide)

/-- C6: when no row of the table contains the identifier marker, the
fallback keeps `header_row = 0` and the identifier-column lookup then
finds no matching label, so `process_roster` always raises (it never
returns a roster). -/
theorem C6_no_marker_raises (df : Table)
    (h : ∀ r ∈ df, rowHasMarker idMarker r = false) :
    process_roster df = .error .indexError := by
  have hnone : firstIdx (rowHasMarker idMarker) df = none :=
    (firstIdx_eq_none_iff _ _).mpr h
  have h0 : header_row df = 0 := by rw [header_row, hnone]; rfl
  cases df with
  | nil => rfl
  | cons r rest =>
    have hr : rowHasMarker idMarker r = false := h r (List.mem_cons_self r rest)
    unfold process_roster
    rw [h0]
    show processWithHeader r (List.drop 1 (r :: rest)) = .error .indexError
    have hid : firstIdx (colMatches idMarker) r = none := by
      apply (firstIdx_eq_none_iff _ _).mpr
      intro c hc
      cases hcm : colMatches idMarker c with
      | false => rfl
      | true =>
        have : rowHasMarker idMarker r = true := by
          rw [rowHasMarker, List.any_eq_true]
          exact ⟨c, hc, hcm⟩
        rw [this] at hr
        cases hr
    unfold processWithHeader
    rw [hid]

/-- Witness for C6: a one-row table whose only cell does not contain the
marker. -/
theorem C6_no_marker_raises_witness :
    process_roster [[some "number", some "姓名"]] = .error .indexError :=
  C6_no_marker_raises [[some "number", some "姓名"]] (by decide)

/-! ## Claim C4: row-level cleaning -/

/-- A successful extraction at the string level is 9 digits long. -/
theorem extract_student_id_wellformed (s v : String)
    (h : extract_student_id s = some v) :
    v.length = 9 ∧ v.data.all isDig = true := by
  unfold extract_student_id at h
  rw [Option.map_eq_some'] at h
  obtain ⟨rl, hrl, hv⟩ := h
  subst hv
  exact extractList_wellformed s.data rl hrl

/-- The length of a `filterMap` counts exactly the elements on which `f` succeeds. -/
theorem filterMap_length_countP {α β : Type} (f : α → Option β)
    (l : List α) :
    (l.filterMap f).length = l.countP fun a => (f a).isSome := by
  induction l with
  | nil => rfl
  | cons a rest ih =>
    cases h : f a with
    | none => simp [List.filterMap_cons, h, List.countP_cons, ih]
    | some b => simp [List.filterMap_cons, h, List.countP_cons, ih]

/-- C4: a data row survives cleaning if and only if a 9-digit run can be
extracted from its identifier-column cell and its name cell is non-blank;
the canonical roster consists of exactly the surviving rows (failed rows
are dropped without a trace), and every retained identifier is a
well-formed 9-digit string (no malformed record survives). -/
theorem C4_row_kept_iff (idIdx nameIdx : Nat) (data : Table) :
    (∀ r : Row, (cleanRow idIdx nameIdx r).isSome = true ↔
        (((r.getD idIdx none).bind extract_student_id).isSome = true ∧
         (r.getD nameIdx none).isSome = true)) ∧
    (buildRoster idIdx nameIdx data).length =
      (data.countP fun r => (cleanRow idIdx nameIdx r).isSome) ∧
    ∀ p ∈ buildRoster idIdx nameIdx data,
      p.1.length = 9 ∧ p.1.data.all isDig = true := by
  refine ⟨?_, filterMap_length_countP _ _, ?_⟩
  · intro r
    unfold cleanRow
    cases hid : r.getD idIdx none with
    | none => simp [hid]
    | some idv =>
      cases hnm : r.getD nameIdx none with
      | none => simp [hid, hnm]
      | some nm =>
        cases he : extract_student_id idv with
        | none => simp [hid, hnm, he]
        | some sid => simp [hid, hnm, he]
  · intro p hp
    rw [buildRoster, List.mem_filterMap] at hp
    obtain ⟨r, _, hr⟩ := hp
    cases hid : r.getD idIdx none with
    | none =>
      rw [show cleanRow idIdx nameIdx r = none by
        unfold cleanRow; rw [hid]] at hr
      cases hr
    | some idv =>
      cases hnm : r.getD nameIdx none with
      | none =>
        rw [show cleanRow idIdx nameIdx r = none by
          unfold cleanRow; rw [hid, hnm]] at hr
        cases hr
      | some nm =>
        have hcr : cleanRow idIdx nameIdx r =
            match extract_student_id idv with
            | some sid => some (sid, nm)
            | none => none := by
          unfold cleanRow
          rw [hid, hnm]
        rw [hcr] at hr
        cases he : extract_student_id idv with
        | none =>
          rw [he] at hr
          cases hr
        | some sid =>
          rw [he] at hr
          rw [Option.some.injEq] at hr
          subst hr
          exact extract_student_id_wellformed idv sid he

/-- Witness for C4: a row whose identifier cell embeds a 9-digit run and
whose name cell is non-blank is kept, and the kept identifier is the
extracted 9-digit string. -/
theorem C4_row_kept_iff_witness :
    (cleanRow 0 1 [some "x100000001", some "甲"]).isSome = true ∧
    ("100000001", "甲").1.length = 9 := by
  have h := C4_row_kept_iff 0 1 [[some "x100000001", some "甲"]]
  refine ⟨(h.1 [some "x100000001", some "甲"]).mpr (by decide), ?_⟩
  exact (h.2.2 ("100000001", "甲") (by decide)).1

/-! ## Claim C5: zero-match column lookups -/

/-- Counterexample to C5: a table with no identifier-marker column and a
table with an identifier column but no name-marker column both abort
with the very same bare `IndexError` — the raised error does not report
which marker was not found, so the two failures are indistinguishable to
the caller. -/
theorem C5_counterexample :
    process_roster [[some "序号", some "姓名"], [some "1", some "张三"]] =
      .error .indexError ∧
    process_roster [[some "学号", some "号码"], [some "100000001", some "2"]] =
      .error .indexError ∧
    process_roster [[some "序号", some "姓名"], [some "1", some "张三"]] =
      process_roster [[some "学号", some "号码"], [some "100000001", some "2"]] :=
  ⟨rfl, rfl, rfl⟩

/-- C5 (amended): if zero column labels contain the identifier marker or
zero contain the name marker, normalization aborts with an `IndexError`
(it does not silently default), but the error is identical in the two
cases and does not report which marker was missing; when a marker
matches several columns the first by position is used. -/
theorem C5_zero_match_aborts (labels : Row) (data : Table) :
    (((∀ c ∈ labels, colMatches idMarker c = false) ∨
      (∀ c ∈ labels, colMatches nameMarker c = false)) →
      processWithHeader labels data = .error .indexError) ∧
    (∀ i, firstIdx (colMatches idMarker) labels = some i →
      i < labels.length ∧ colMatches idMarker (labels.getD i none) = true ∧
      ∀ j, j < i → colMatches idMarker (labels.getD j none) = false) ∧
    (∀ i, firstIdx (colMatches nameMarker) labels = some i →
      i < labels.length ∧ colMatches nameMarker (labels.getD i none) = true ∧
      ∀ j, j < i → colMatches nameMarker (labels.getD j none) = false) := by
  refine ⟨?_, fun i h => firstIdx_first _ _ i none h,
    fun i h => firstIdx_first _ _ i none h⟩
  intro h
  cases h with
  | inl hid =>
    have hnone : firstIdx (colMatches idMarker) labels = none :=
      (firstIdx_eq_none_iff _ _).mpr hid
    unfold processWithHeader
    rw [hnone]
  | inr hnm =>
    have hnone : firstIdx (colMatches nameMarker) labels = none :=
      (firstIdx_eq_none_iff _ _).mpr hnm
    unfold processWithHeader
    cases hi : firstIdx (colMatches idMarker) labels with
    | none => rfl
    | some idIdx => rw [hnone]

/-- Witness for C5 (amended): a header with no identifier-marker label
aborts, and in a header whose second label alone contains the
identifier marker the lookup points at position 1. -/
theorem C5_zero_match_aborts_witness :
    processWithHeader [some "序号", some "班级"] [] = .error .indexError ∧
    (1 < ([some "序号", some "学号"] : Row).length ∧
      colMatches idMarker (([some "序号", some "学号"] : Row).getD 1 none) = true ∧
      ∀ j, j < 1 →
        colMatches idMarker (([some "序号", some "学号"] : Row).getD j none) = false) :=
  ⟨(C5_zero_match_aborts [some "序号", some "班级"] []).1 (Or.inl (by decide)),
   (C5_zero_match_aborts [some "序号", some "学号"] []).2.1 1 (by decide)⟩

/-! ## Claims C1, C2, C3, C10: the reconciliation metrics -/

/-- Counterexample to C1: with roster `{100000001}` and a single
submission `999999999_hw.py` whose identifier has no roster entry, the
extraneous identifier is counted — `submit_count` is 1 (not 0) and
`submit_rate` is 1 (not 0), even though the identifier is absent from
the expected set. -/
theorem C1_counterexample :
    "999999999" ∈ submitted_ids ["999999999_hw.py"] ∧
    "999999999" ∉ all_student_ids [("100000001", "A")] ∧
    submit_count (submitted_ids ["999999999_hw.py"]) = 1 ∧
    submit_rate (all_student_ids [("100000001", "A")])
      (submitted_ids ["999999999_hw.py"]) = 1 := by
  refine ⟨by decide, by decide, by decide, ?_⟩
  have h1 : (all_student_ids [("100000001", "A")]).card = 1 := by decide
  have h2 : submit_count (submitted_ids ["999999999_hw.py"]) = 1 := by decide
  rw [submit_rate, h1, h2]
  norm_num

/-- C1 (amended): identifiers in the SubmissionSet without a roster
entry are indeed not represented in `statusByIdentifier` (whose keys all
come from the roster), but they ARE counted: `submit_count` is the size
of the whole SubmissionSet, i.e. the matched part plus the unmatched
part, and `submit_rate` divides that same total by the roster size. -/
theorem C1_unmatched_submissions (roster : List (String × String))
    (sub : Finset String) :
    (∀ p ∈ statusByIdentifier roster sub, p.1 ∈ all_student_ids roster) ∧
    submit_count sub =
      ((all_student_ids roster) ∩ sub).card +
        (sub \ all_student_ids roster).card ∧
    (0 < total_students roster →
      submit_rate (all_student_ids roster) sub =
        ((((all_student_ids roster) ∩ sub).card +
            (sub \ all_student_ids roster).card : ℕ) : ℚ) /
          (total_students roster : ℚ)) := by
  refine ⟨?_, ?_, ?_⟩
  · intro p hp
    rw [statusByIdentifier, List.mem_map] at hp
    obtain ⟨e, he, rfl⟩ := hp
    rw [all_student_ids, List.mem_toFinset]
    exact List.mem_map_of_mem Prod.fst he
  · rw [submit_count, Finset.inter_comm]
    exact (Finset.card_inter_add_card_sdiff sub (all_student_ids roster)).symm
  · intro hpos
    rw [submit_rate, if_pos (by rwa [total_students] at hpos)]
    rw [submit_count, Finset.inter_comm,
      Finset.card_inter_add_card_sdiff sub (all_student_ids roster),
      total_students]

/-- Witness for C1 (amended) at roster `{100000001}` and submissions
`{999999999, 100000001}`: the status row for `100000001` has its key in
the roster, and the counting identities hold with one matched and one
unmatched submission. -/
theorem C1_unmatched_submissions_witness :
    ("100000001", true).1 ∈ all_student_ids [("100000001", "A")] ∧
    submit_count (submitted_ids ["999999999_hw.py", "100000001_a.py"]) =
      ((all_student_ids [("100000001", "A")]) ∩
          submitted_ids ["999999999_hw.py", "100000001_a.py"]).card +
        (submitted_ids ["999999999_hw.py", "100000001_a.py"] \
            all_student_ids [("100000001", "A")]).card :=
  ⟨(C1_unmatched_submissions [("100000001", "A")]
      (submitted_ids ["999999999_hw.py", "100000001_a.py"])).1
      ("100000001", true) (by decide),
   (C1_unmatched_submissions [("100000001", "A")]
      (submitted_ids ["999999999_hw.py", "100000001_a.py"])).2.1⟩

/-- Counterexample to C2: with roster `{100000001}` (non-empty) and
SubmissionSet `{999999999, 123456789}`, the computed `submit_rate` is 2:
it differs from `|present| / |expected| = 0` and lies outside `[0,1]`. -/
theorem C2_counterexample :
    submit_rate (all_student_ids [("100000001", "A")])
      (submitted_ids ["999999999_a.py", "123456789_b.py"]) = 2 ∧
    ((((all_student_ids [("100000001", "A")]) ∩
          submitted_ids ["999999999_a.py", "123456789_b.py"]).card : ℚ) /
        ((all_student_ids [("100000001", "A")]).card : ℚ)) = 0 ∧
    ¬ (submit_rate (all_student_ids [("100000001", "A")])
        (submitted_ids ["999999999_a.py", "123456789_b.py"]) ≤ 1) := by
  have hall : (all_student_ids [("100000001", "A")]).card = 1 := by decide
  have hsub : submit_count
      (submitted_ids ["999999999_a.py", "123456789_b.py"]) = 2 := by decide
  have hint : ((all_student_ids [("100000001", "A")]) ∩
      submitted_ids ["999999999_a.py", "123456789_b.py"]).card = 0 := by decide
  have hrate : submit_rate (all_student_ids [("100000001", "A")])
      (submitted_ids ["999999999_a.py", "123456789_b.py"]) = 2 := by
    rw [submit_rate, hall, hsub]
    norm_num
  refine ⟨hrate, ?_, ?_⟩
  · rw [hall, hint]
    norm_num
  · rw [hrate]
    norm_num

/-- C2 (amended): the computed rate is `|SubmissionSet| / |expected|`;
when every submitted identifier has a roster entry (so the SubmissionSet
is contained in the expected set) it coincides with
`|present| / |expected|` for `present = expected ∩ SubmissionSet` and
lies in `[0,1]`. -/
theorem C2_rate_of_contained (roster : List (String × String))
    (sub : Finset String) (hsub : sub ⊆ all_student_ids roster)
    (hpos : 0 < total_students roster) :
    submit_rate (all_student_ids roster) sub =
      ((((all_student_ids roster) ∩ sub).card : ℚ) /
        ((all_student_ids roster).card : ℚ)) ∧
    0 ≤ submit_rate (all_student_ids roster) sub ∧
    submit_rate (all_student_ids roster) sub ≤ 1 := by
  have hpos' : 0 < (all_student_ids roster).card := by
    rwa [total_students] at hpos
  have hinter : (all_student_ids roster) ∩ sub = sub :=
    Finset.inter_eq_right.mpr hsub
  have h1 : submit_rate (all_student_ids roster) sub =
      (sub.card : ℚ) / ((all_student_ids roster).card : ℚ) := by
    rw [submit_rate, if_pos hpos', submit_count]
  refine ⟨by rw [h1, hinter], ?_, ?_⟩
  · rw [h1]
    positivity
  · rw [h1, div_le_one (by exact_mod_cast hpos')]
    exact_mod_cast Finset.card_le_card hsub

/-- Witness for C2 (amended): roster `{100000001}` with the single
matching submission `100000001_hw.py` gives a rate within `[0,1]`. -/
theorem C2_rate_of_contained_witness :
    submit_rate (all_student_ids [("100000001", "A")])
      (submitted_ids ["100000001_hw.py"]) ≤ 1 :=
  (C2_rate_of_contained [("100000001", "A")]
    (submitted_ids ["100000001_hw.py"]) (by decide) (by decide)).2.2

/-- Counterexample to C3: with roster `{100000001}` and the unmatched
submission `999999999_hw1.py`, `missing_count + submit_count = 2` but
`total_students = 1`. -/
theorem C3_counterexample :
    ¬ (missing_count (all_student_ids [("100000001", "A")])
          (submitted_ids ["999999999_hw1.py"]) +
        submit_count (submitted_ids ["999999999_hw1.py"]) =
        total_students [("100000001", "A")]) := by
  decide

/-- C3 (amended): for all inputs, `missing_count` plus the number of
PRESENT identifiers (`expected ∩ SubmissionSet`) equals the total
expected count, and the present and missing sets are disjoint; the
claim's `submit_count` version holds only because `submit_count` counts
the whole SubmissionSet, which equals the present count just when the
SubmissionSet is contained in the expected set. -/
theorem C3_partition (roster : List (String × String))
    (sub : Finset String) :
    missing_count (all_student_ids roster) sub +
      ((all_student_ids roster) ∩ sub).card = total_students roster ∧
    Disjoint ((all_student_ids roster) ∩ sub)
      (missing_ids (all_student_ids roster) sub) ∧
    (sub ⊆ all_student_ids roster →
      missing_count (all_student_ids roster) sub + submit_count sub =
        total_students roster) := by
  have hpart : missing_count (all_student_ids roster) sub +
      ((all_student_ids roster) ∩ sub).card = total_students roster := by
    rw [missing_count, missing_ids, total_students]
    exact Finset.card_sdiff_add_card_inter (all_student_ids roster) sub
  refine ⟨hpart, ?_, ?_⟩
  · rw [Finset.disjoint_left]
    intro a ha hb
    rw [missing_ids, Finset.mem_sdiff] at hb
    exact hb.2 (Finset.mem_inter.mp ha).2
  · intro hsub
    have hinter : (all_student_ids roster) ∩ sub = sub :=
      Finset.inter_eq_right.mpr hsub
    calc missing_count (all_student_ids roster) sub + submit_count sub
        = missing_count (all_student_ids roster) sub +
            ((all_student_ids roster) ∩ sub).card := by
          rw [submit_count, hinter]
      _ = total_students roster := hpart

/-- Witness for C3 (amended): roster `{100000001, 100000002}` with one
matching submission — `1 + 1 = 2` and the conditional count identity
holds since the SubmissionSet is contained in the roster. -/
theorem C3_partition_witness :
    missing_count (all_student_ids [("100000001", "A"), ("100000002", "B")])
        (submitted_ids ["100000001_hw.py"]) +
      submit_count (submitted_ids ["100000001_hw.py"]) =
      total_students [("100000001", "A"), ("100000002", "B")] :=
  (C3_partition [("100000001", "A"), ("100000002", "B")]
    (submitted_ids ["100000001_hw.py"])).2.2 (by decide)

/-- C10: with an empty canonical roster the computation does not fail —
the expected count is 0 and `submit_rate` is defined to be 0 for every
SubmissionSet (the guard avoids the division). -/
theorem C10_empty_roster_rate_zero (sub : Finset String) :
    total_students [] = 0 ∧ submit_rate (all_student_ids []) sub = 0 := by
  refine ⟨rfl, ?_⟩
  rw [submit_rate]
  norm_num [all_student_ids]
